import Mathlib

/-!
Verification development for the openapi-mcp-server repository.

The definitions below are a shallow embedding of the core logic of the
Cloudflare-worker entry point (the third segment of src/evals.ts): the
operation matcher, the overview generator, the Swagger-detection and
normalization step, and the two tool handlers.  JavaScript objects are
modelled as Lean structures; object key iteration order is modelled by
ordered association lists; JavaScript string truthiness (undefined or
empty string is falsy) is modelled explicitly.  External collaborators
(the WHATWG URL parser, the remote Swagger converter, the dereferencing
library) are modelled as function parameters, since the repository treats
them as capabilities it calls.
-/

-- ==================== STRING HELPERS ====================

/-- Model of the JavaScript Array.prototype.join(sep) on string arrays. -/
def joinSep (sep : String) : List String → String
  | [] => ""
  | [s] => s
  | s :: rest => s ++ sep ++ joinSep sep rest

/-- Model of the JavaScript String.prototype.slice(1): drop the first character. -/
def sliceOne (s : String) : String := String.mk (s.data.drop 1)

/-- Character-list test used to model String.prototype.startsWith. -/
def startsWithChars : List Char → List Char → Bool
  | [], _ => true
  | _ :: _, [] => false
  | a :: as, b :: bs => a == b && startsWithChars as bs

/-- Model of the JavaScript s.startsWith(pre). -/
def strStartsWith (s pre : String) : Bool := startsWithChars pre.data s.data

/-- Model of the JavaScript String.prototype.toUpperCase on ASCII method names. -/
def strToUpper (s : String) : String := String.mk (s.data.map Char.toUpper)

/-- Model of the JavaScript String.prototype.toLowerCase on ASCII method names. -/
def strToLower (s : String) : String := String.mk (s.data.map Char.toLower)

/-- Model of the JavaScript url.split(sep)[0]: the characters before the
first occurrence of the separator character. -/
def firstSplitSegment (s : String) (c : Char) : String :=
  String.mk (s.data.takeWhile (fun a => a != c))

/-- JavaScript truthiness of an optional string field: undefined and the
empty string are falsy. -/
def truthyStr : Option String → Bool
  | some s => s != ""
  | none => false

-- ==================== JSON TREES ====================

/-- Untyped JSON values, used for the parts of a specification the worker
treats opaquely (component schemas, request bodies, responses). -/
inductive Json where
  | null : Json
  | bool : Bool → Json
  | num : Int → Json
  | str : String → Json
  | arr : List Json → Json
  | obj : List (String × Json) → Json

mutual

/-- Whether a JSON tree contains an object field named the ref keyword,
anywhere.  Used to state the dereferencing contract. -/
def Json.containsRef : Json → Bool
  | .obj fields => containsRefFields fields
  | .arr elems => containsRefElems elems
  | _ => false

def containsRefElems : List Json → Bool
  | [] => false
  | j :: t => j.containsRef || containsRefElems t

def containsRefFields : List (String × Json) → Bool
  | [] => false
  | (k, v) :: t => k == "$ref" || v.containsRef || containsRefFields t

end

-- ==================== DATA MODEL (src/evals.ts types) ====================

/-- Server entry of an OpenAPI document (type Server in src/evals.ts). -/
structure Server where
  url : String
  description : Option String := none

/-- The schema attached to a parameter (the schema field of interface
Parameter in src/evals.ts).  Only the type field is consulted by the code. -/
structure ParamSchema where
  type : Option String := none

/-- Interface Parameter of src/evals.ts.  The source field named in is a
Lean keyword, so it is called paramIn here. -/
structure Parameter where
  name : String
  paramIn : String
  required : Option Bool := none
  schema : Option ParamSchema := none
  description : Option String := none

/-- Interface Operation of src/evals.ts.  requestBody and responses are
kept as opaque JSON trees; the worker never inspects them except through
the external dereferencer. -/
structure Operation where
  operationId : Option String := none
  summary : Option String := none
  description : Option String := none
  parameters : Option (List Parameter) := none
  requestBody : Option Json := none
  responses : Option Json := none
  servers : Option (List Server) := none

/-- Interface PathItem of src/evals.ts: one optional operation per HTTP method. -/
structure PathItem where
  get : Option Operation := none
  post : Option Operation := none
  put : Option Operation := none
  delete : Option Operation := none
  patch : Option Operation := none

/-- The info object of an OpenAPI document. -/
structure Info where
  title : String
  version : String
  description : Option String := none

/-- Interface OpenapiDocument of src/evals.ts.  paths is an ordered
association list, modelling JavaScript object key insertion order.  A
document whose paths field is absent in JavaScript is modelled by the
empty list, which produces the same observable behaviour in every
function below. -/
structure OpenapiDocument where
  openapi : Option String := none
  swagger : Option String := none
  info : Option Info := none
  servers : Option (List Server) := none
  paths : List (String × PathItem) := []
  tags : Option Json := none
  webhooks : Option Json := none
  components : Option Json := none

/-- The result of matchOperation in src/evals.ts. -/
structure MatchedOperation where
  operation : Operation
  originalPath : String
  method : String

-- ==================== OPERATION MATCHER (src/evals.ts matchOperation) ====================

/-- The method list iterated by matchOperation and by the overview
generator in src/evals.ts; both use the same order. -/
def matchMethods : List String := ["get", "post", "put", "patch", "delete"]

/-- Dynamic access pathItem[httpMethod] of src/evals.ts for the five
methods the code iterates. -/
def PathItem.lookupMethod (item : PathItem) (m : String) : Option Operation :=
  if m == "get" then item.get
  else if m == "post" then item.post
  else if m == "put" then item.put
  else if m == "patch" then item.patch
  else if m == "delete" then item.delete
  else none

/-- Object property lookup openapi.paths[key], modelled as first match in
the association list (JavaScript objects cannot hold duplicate keys). -/
def lookupPath (paths : List (String × PathItem)) (key : String) : Option PathItem :=
  (paths.find? (fun p => p.1 == key)).map (fun p => p.2)

/-- The inner find of matchOperation: the first method in the given list
whose operation carries the target operationId, together with that
operation (the source finds the method name and then reads the operation
back off the path item). -/
def findMethodOp (item : PathItem) (target : String) : List String → Option (String × Operation)
  | [] => none
  | m :: rest =>
    match item.lookupMethod m with
    | some op =>
      if op.operationId == some target then some (m, op)
      else findMethodOp item target rest
    | none => findMethodOp item target rest

/-- The operationId loop of matchOperation in src/evals.ts: paths in
declaration order, methods in matchMethods order, first hit wins. -/
def findIdMatch (target : String) : List (String × PathItem) → Option MatchedOperation
  | [] => none
  | (path, item) :: rest =>
    match findMethodOp item target matchMethods with
    | some (m, op) =>
      some { operation := op, originalPath := path, method := strToUpper m }
    | none => findIdMatch target rest

/-- matchOperation of src/evals.ts: direct GET lookup of the pathname as
a route, then the operationId scan over the pathname without its first
character. -/
def matchOperation (openapi : OpenapiDocument) (pathname : String) : Option MatchedOperation :=
  match (lookupPath openapi.paths pathname).bind PathItem.get with
  | some directMatch =>
    some { operation := directMatch, originalPath := pathname, method := "GET" }
  | none => findIdMatch (sliceOne pathname) openapi.paths

/-- The call site in handleGetApiOperation of src/evals.ts: the user token
is prefixed with exactly one slash before matching. -/
def matchToken (doc : OpenapiDocument) (token : String) : Option MatchedOperation :=
  matchOperation doc ("/" ++ token)

-- ==================== OVERVIEW GENERATOR (src/evals.ts generateOverview) ====================

/-- getServerOrigin of src/evals.ts.  The WHATWG URL parser is the
external capability parseOrigin: some origin when new URL(url) succeeds,
none when it throws.  A declared-but-empty server list on the operation is
truthy in JavaScript and is therefore chosen over the root list. -/
def getServerOrigin (parseOrigin : String → Option String)
    (operation : Option Operation) (rootServers : List Server) : String :=
  let servers : List Server :=
    match operation with
    | some op =>
      match op.servers with
      | some declared => declared
      | none => rootServers
    | none => rootServers
  match servers with
  | [] => ""
  | s :: _ =>
    match parseOrigin s.url with
    | some origin => origin
    | none => firstSplitSegment s.url '/'

/-- One collected entry of the items array in generateOverview. -/
structure OverviewItem where
  operationId : String
  pathPart : String
  summaryPart : String
  openapiUrl : String

/-- The body of the method loop in generateOverview of src/evals.ts,
producing one items entry for one operation. -/
def buildItem (parseOrigin : String → Option String) (hostname : String)
    (rootServers : List Server) (path method : String) (operation : Operation) : OverviewItem :=
  let serverOrigin := getServerOrigin parseOrigin (some operation) rootServers
  let operationId := operation.operationId.getD ""
  let queryParams : Option String :=
    operation.parameters.map (fun ps =>
      joinSep "&" ((ps.filter (fun p => p.paramIn == "query")).map (fun p =>
        p.name ++ "=" ++
          (match p.schema.bind ParamSchema.type with
           | some t => if t == "" then p.name else t
           | none => p.name))))
  let queryString : String :=
    match queryParams with
    | some s => if s == "" then "" else "?" ++ s
    | none => ""
  let summaryPart : String :=
    match operation.summary with
    | some s => if s == "" then "" else " - " ++ s
    | none => ""
  let pathPart := strToUpper method ++ " " ++ serverOrigin ++ path ++ queryString
  let openapiUrl :=
    "https://oapis.org/openapi/" ++ hostname ++
      (if operationId == "" then path else "/" ++ operationId)
  { operationId := operationId, pathPart := pathPart,
    summaryPart := summaryPart, openapiUrl := openapiUrl }

/-- The items collection loop of generateOverview: paths in declaration
order, methods in the fixed order get, post, put, patch, delete. -/
def collectItems (parseOrigin : String → Option String) (hostname : String)
    (openapi : OpenapiDocument) : List OverviewItem :=
  openapi.paths.flatMap (fun p =>
    matchMethods.filterMap (fun m =>
      (p.2.lookupMethod m).map
        (buildItem parseOrigin hostname (openapi.servers.getD []) p.1 m)))

/-- Hexadecimal digit used by the JSON string escaper. -/
def hexDigit (n : Nat) : Char :=
  if n < 10 then Char.ofNat (48 + n) else Char.ofNat (87 + n)

/-- JSON.stringify escaping of one character. -/
def escapeJsonChar (c : Char) : String :=
  if c == '"' then "\\\""
  else if c == '\\' then "\\\\"
  else if c == '\x08' then "\\b"
  else if c == '\x09' then "\\t"
  else if c == '\x0a' then "\\n"
  else if c == '\x0c' then "\\f"
  else if c == '\x0d' then "\\r"
  else if c.toNat < 32 then
    "\\u00" ++ String.mk [hexDigit (c.toNat / 16), hexDigit (c.toNat % 16)]
  else String.mk [c]

/-- JSON.stringify of a string value. -/
def jsonQuote (s : String) : String :=
  "\"" ++ String.join (s.data.map escapeJsonChar) ++ "\""

/-- JSON.stringify of one items entry, fields in object insertion order. -/
def stringifyItem (it : OverviewItem) : String :=
  "\x7b\"operationId\":" ++ jsonQuote it.operationId ++
    ",\"pathPart\":" ++ jsonQuote it.pathPart ++
    ",\"summaryPart\":" ++ jsonQuote it.summaryPart ++
    ",\"openapiUrl\":" ++ jsonQuote it.openapiUrl ++ "\x7d"

/-- JSON.stringify(items) as computed for the isLong threshold in
generateOverview. -/
def stringifyItems (l : List OverviewItem) : String :=
  "[" ++ joinSep "," (l.map stringifyItem) ++ "]"

/-- The line produced for one items entry by generateOverview; when the
serialized item set is long the path part is replaced by a single space. -/
def itemLine (isLong : Bool) (item : OverviewItem) : String :=
  "- " ++ item.operationId ++ (if isLong then " " else " " ++ item.pathPart) ++
    item.summaryPart ++ " ( Spec: " ++ item.openapiUrl ++ " )"

/-- The header block pushed before the item lines in generateOverview:
title line, then the description when truthy, then a blank line; nothing
when the info object is absent. -/
def overviewHeader (parseOrigin : String → Option String)
    (openapi : OpenapiDocument) : List String :=
  match openapi.info with
  | some info =>
    [info.title ++ " v" ++ info.version ++ " - " ++
       getServerOrigin parseOrigin none (openapi.servers.getD [])] ++
      (match info.description with
       | some d => if d == "" then [] else [d]
       | none => []) ++
      [""]
  | none => []

/-- The banner line unshifted onto the output in generateOverview. -/
def overviewBanner (hostname : String) (endpointCount : Int) : String :=
  "Below is an overview of the " ++ hostname ++
    " openapi in simple language. This API contains " ++ toString endpointCount ++
    " endpoints. For more detailed information of an endpoint, visit https://oapis.org/summary/" ++
    hostname ++ "/[idOrRoute]"

/-- generateOverview of src/evals.ts.  The endpoint count is computed,
as in the source, as the length of the accumulated output minus three. -/
def generateOverview (parseOrigin : String → Option String) (hostname : String)
    (openapi : OpenapiDocument) : String :=
  let items := collectItems parseOrigin hostname openapi
  let isLong := (stringifyItems items).length > 50000
  let output := overviewHeader parseOrigin openapi ++ items.map (itemLine isLong)
  let endpointCount : Int := (output.length : Int) - 3
  joinSep "\n" ([overviewBanner hostname endpointCount, ""] ++ output)

-- ==================== NORMALIZATION (swagger detection and conversion) ====================

/-- Outcome of the normalization step of the two handlers. -/
inductive NormalizeResult where
  | ok : OpenapiDocument → NormalizeResult
  | conversionError : NormalizeResult

/-- The isSwagger test of handleGetApiOverview and handleGetApiOperation:
a truthy swagger field, or a falsy openapi field, or an openapi field not
starting with the 3. prefix. -/
def isSwaggerDoc (d : OpenapiDocument) : Bool :=
  truthyStr d.swagger || !truthyStr d.openapi ||
    !strStartsWith (d.openapi.getD "") "3."

/-- The conversion step of the handlers.  convertSwaggerToOpenapi is an
external fetch; its outcome (undefined on failure or timeout) is the
converterResult parameter.  The post-conversion guard of the source tests
only that the openapi field of the resulting document is truthy. -/
def normalizeDoc (converterResult : Option OpenapiDocument)
    (d : OpenapiDocument) : NormalizeResult :=
  let converted : Option OpenapiDocument :=
    if isSwaggerDoc d then converterResult else some d
  match converted with
  | some c => if truthyStr c.openapi then .ok c else .conversionError
  | none => .conversionError

-- ==================== OVERVIEW HANDLER (src/evals.ts handleGetApiOverview) ====================

/-- A tool response: one text content block and the isError flag. -/
structure ToolResult where
  text : String
  isError : Bool

/-- The message produced when the generated overview exceeds the size
ceiling, as caught and prefixed by the handler. -/
def tooLargeMessage : String :=
  "Error: The OpenAPI specification is too large to process with this MCP. Please try a different OpenAPI."

/-- handleGetApiOverview of src/evals.ts from the point where the raw
document has been fetched and parsed: normalization, overview generation,
and the 250000-character ceiling. -/
def handleGetApiOverviewCore (parseOrigin : String → Option String)
    (converterResult : Option OpenapiDocument) (id : String)
    (doc : OpenapiDocument) : ToolResult :=
  match normalizeDoc converterResult doc with
  | .conversionError => { text := "Error: Conversion failed", isError := true }
  | .ok c =>
    let overview := generateOverview parseOrigin id c
    if overview.length > 250000 then { text := tooLargeMessage, isError := true }
    else { text := overview, isError := false }

-- ==================== OPERATION HANDLER (src/evals.ts handleGetApiOperation) ====================

/-- The five optional operations of a path item in the order the
not-found enumeration of handleGetApiOperation reads them
(get, post, delete, put, patch). -/
def errEnumMethods (item : PathItem) : List (Option Operation) :=
  [item.get, item.post, item.delete, item.put, item.patch]

/-- The per-path operationId collection of the not-found branch: the
possibly-absent ids of the five methods, with falsy entries (absent or
empty) removed by the filter(Boolean) of the source. -/
def pathItemIds (item : PathItem) : List String :=
  (errEnumMethods item).filterMap (fun o =>
    match o.bind Operation.operationId with
    | some v => if v == "" then none else some v
    | none => none)

/-- The not-found error text of handleGetApiOperation, with the Error
prefix added by the surrounding catch. -/
def notFoundMessage (doc : OpenapiDocument) : String :=
  let operationIds := doc.paths.flatMap (fun p => pathItemIds p.2)
  let routes := doc.paths.map (fun p => p.1)
  "Error: Operation wasn\x27t found. Available IDs: " ++ joinSep ", " operationIds ++
    ". Routes: " ++ joinSep ", " routes

/-- The computed-key object literal of the subset construction: a path
item holding the matched operation under the lowercased method name. -/
def singletonPathItem (m : String) (op : Operation) : PathItem :=
  { get := if m == "get" then some op else none
    post := if m == "post" then some op else none
    put := if m == "put" then some op else none
    patch := if m == "patch" then some op else none
    delete := if m == "delete" then some op else none }

/-- The subset document of handleGetApiOperation: the full converted
document with paths replaced by the single matched path and method. -/
def buildSubset (doc : OpenapiDocument) (matched : MatchedOperation) : OpenapiDocument :=
  { doc with
    paths := [(matched.originalPath,
               singletonPathItem (strToLower matched.method) matched.operation)] }

/-- The destructuring of the dereferenced document: tags, webhooks and
components are pulled out and the rest is kept. -/
def stripSections (d : OpenapiDocument) : OpenapiDocument :=
  { d with tags := none, webhooks := none, components := none }

/-- Result of handleGetApiOperation after normalization: either an error
message, or a document that the worker serializes with the external YAML
dumper (the serialization itself is the excluded collaborator, so the
result is stated at the document level). -/
inductive OperationResult where
  | errorText : String → OperationResult
  | okDoc : OpenapiDocument → OperationResult

/-- The isError flag of the corresponding tool response. -/
def OperationResult.isError : OperationResult → Bool
  | .errorText _ => true
  | .okDoc _ => false

/-- handleGetApiOperation of src/evals.ts from the point where the
document has been normalized: token matching, the not-found enumeration,
subset construction, dereferencing (the external capability deref, none
modelling a thrown exception) and section stripping; a dereferencing
failure degrades to the raw subset with no error flag. -/
def handleGetApiOperationCore (deref : OpenapiDocument → Option OpenapiDocument)
    (doc : OpenapiDocument) (operationIdOrRoute : String) : OperationResult :=
  match matchOperation doc ("/" ++ operationIdOrRoute) with
  | none => .errorText (notFoundMessage doc)
  | some matched =>
    let subset := buildSubset doc matched
    match deref subset with
    | some dereferenced => .okDoc (stripSections dereferenced)
    | none => .okDoc subset

-- ==================== REF-FREENESS ====================

/-- An operation is ref-free when its request body and responses trees
contain no ref pointer. -/
def Operation.noRefs (op : Operation) : Bool :=
  !(op.requestBody.getD Json.null).containsRef &&
    !(op.responses.getD Json.null).containsRef

/-- A path item is ref-free when all its present operations are. -/
def PathItem.noRefs (item : PathItem) : Bool :=
  (([item.get, item.post, item.put, item.patch, item.delete]).filterMap id).all
    Operation.noRefs

/-- A document is ref-free when every operation under paths is. -/
def docNoRefs (d : OpenapiDocument) : Bool :=
  d.paths.all (fun p => p.2.noRefs)

-- ==================== SPEC-SIDE DEFINITIONS ====================

/-- All operations of a document as path-method-operation triples, paths
in declaration order and methods in the fixed method order.  Written from
the words of the specification for the refinement statements. -/
def allOperations (doc : OpenapiDocument) : List (String × String × Operation) :=
  doc.paths.flatMap (fun p =>
    matchMethods.filterMap (fun m =>
      (p.2.lookupMethod m).map (fun op => (p.1, m, op))))

/-- The matching fallback as the specification words it: the token is
compared against every operationId across all paths and methods, in
path-then-method order, and the first match wins. -/
def firstIdMatchSpec (doc : OpenapiDocument) (token : String) : Option MatchedOperation :=
  ((allOperations doc).find? (fun t => t.2.2.operationId == some token)).map
    (fun t => { operation := t.2.2, originalPath := t.1, method := strToUpper t.2.1 })

/-- The whole matching policy as the specification words it: the token is
first tried as a literal route path using only the GET method, and only
on failure compared against the operationIds. -/
def matchPolicySpec (doc : OpenapiDocument) (token : String) : Option MatchedOperation :=
  match (lookupPath doc.paths ("/" ++ token)).bind PathItem.get with
  | some op => some { operation := op, originalPath := "/" ++ token, method := "GET" }
  | none => firstIdMatchSpec doc token

/-- The name and type pairs of the query parameters of an operation, as
the specification words them: one pair per query parameter. -/
def queryPairsSpec (op : Operation) : List String :=
  ((op.parameters.getD []).filter (fun p => p.paramIn == "query")).map (fun p =>
    p.name ++ "=" ++
      (match p.schema.bind ParamSchema.type with
       | some t => if t == "" then p.name else t
       | none => p.name))

/-- The query string segment of an overview line as the specification
words it: absent when there are no query parameters, otherwise the pairs
joined by ampersands behind a question mark. -/
def queryStringSpec (op : Operation) : String :=
  match queryPairsSpec op with
  | [] => ""
  | ps => "?" ++ joinSep "&" ps

/-- needle occurs contiguously inside haystack. -/
def SubstrOf (needle haystack : String) : Prop :=
  ∃ pre post : String, haystack = pre ++ needle ++ post

/-- s is an operationId declared on some method of some path of the
document. -/
def DeclaredId (doc : OpenapiDocument) (s : String) : Prop :=
  ∃ p ∈ doc.paths, ∃ o ∈ errEnumMethods p.2, ∃ op, o = some op ∧ op.operationId = some s

-- ==================== CONCRETE INSTANCES ====================

/-- URL-parsing capability that always fails, exercising the split
fallback. -/
def po0 : String → Option String := fun _ => none

/-- Operation with a declared operationId and no servers of its own. -/
def fooGetOp : Operation := { operationId := some "getFoo" }

/-- Document holding both a literal route and, earlier in declaration
order, an operation whose operationId equals that route name. -/
def fooDoc : OpenapiDocument :=
  { paths := [("/bar", { get := some { operationId := some "foo" } }),
              ("/foo", { get := some fooGetOp })] }

/-- First declared carrier of a duplicated operationId. -/
def dupOpFirst : Operation := { operationId := some "dup", summary := some "first" }

/-- Second declared carrier of a duplicated operationId. -/
def dupOpSecond : Operation := { operationId := some "dup", summary := some "second" }

/-- Document with the same operationId declared on two paths. -/
def dupDoc : OpenapiDocument :=
  { paths := [("/a", { get := some dupOpFirst }), ("/b", { get := some dupOpSecond })] }

/-- Post operation for the method-order instance. -/
def dmPost : Operation := { operationId := some "mm2", summary := some "viaPost" }

/-- Delete operation for the method-order instance. -/
def dmDelete : Operation := { operationId := some "mm2", summary := some "viaDelete" }

/-- Document with the same operationId on two methods of one path. -/
def dupMethodDoc : OpenapiDocument :=
  { paths := [("/mm", { delete := some dmDelete, post := some dmPost })] }

/-- A Swagger 2.0 shaped input document. -/
def swaggerDocC2 : OpenapiDocument := { swagger := some "2.0" }

/-- A converter output carrying a non-3.x openapi version field. -/
def convBadC2 : OpenapiDocument := { openapi := some "2.0" }

/-- A string of 250001 characters, used to push an overview past the
size ceiling. -/
def bigString : String := String.mk (List.replicate 250001 'a')

/-- OpenAPI 3.x document whose description alone exceeds the overview
ceiling. -/
def bigDoc3 : OpenapiDocument :=
  { openapi := some "3.0.0"
    info := some { title := "T", version := "1", description := some bigString } }

/-- Small OpenAPI 3.x document whose overview is far below the ceiling. -/
def smallDoc3 : OpenapiDocument :=
  { openapi := some "3.0.0", info := some { title := "T", version := "1" } }

/-- URL-parsing capability recognizing the pet-store server. -/
def petParse : String → Option String := fun s =>
  if s == "https://pets.example.com" then some "https://pets.example.com" else none

/-- The pet-store scenario of the specification: title and version but no
description, one path with one GET operation carrying one query
parameter. -/
def petDoc : OpenapiDocument :=
  { openapi := some "3.0.0"
    info := some { title := "Pet Store", version := "1.0" }
    servers := some [{ url := "https://pets.example.com" }]
    paths := [("/pets",
      { get := some
          { operationId := some "listPets"
            summary := some "List pets"
            parameters := some
              [{ name := "limit", paramIn := "query"
                 schema := some { type := some "integer" } }] } })] }

/-- Operations and path items of the not-found enumeration instance. -/
def opAlpha : Operation := { operationId := some "alpha" }

def opBeta : Operation := { operationId := some "beta" }

def opGamma : Operation := { operationId := some "gamma" }

def itemA : PathItem := { get := some opAlpha, post := some opBeta }

def itemB : PathItem := { delete := some opGamma }

/-- Document with several operationIds and routes, none of which match
the probe token. -/
def docC4 : OpenapiDocument := { paths := [("/a", itemA), ("/b", itemB)] }

/-- Dereferencing capability that always throws. -/
def derefFail : OpenapiDocument → Option OpenapiDocument := fun _ => none

/-- A response schema holding a ref pointer into components. -/
def petRefOp : Operation :=
  { operationId := some "getPet"
    responses := some (Json.obj [("200", Json.obj [("$ref", Json.str "#/components/schemas/Pet")])]) }

/-- Document with components, tags and webhooks sections and one
operation whose response schema refers into components. -/
def docC6 : OpenapiDocument :=
  { openapi := some "3.0.0"
    tags := some (Json.arr [])
    webhooks := some (Json.obj [])
    components := some (Json.obj
      [("schemas", Json.obj [("Pet", Json.obj [("type", Json.str "object")])])])
    paths := [("/pet", { get := some petRefOp })] }

/-- The operation of docC6 with its ref pointer replaced by the referenced
schema. -/
def inlinedOp : Operation :=
  { operationId := some "getPet"
    responses := some (Json.obj [("200", Json.obj [("type", Json.str "object")])]) }

/-- A dereferenced, ref-free output document. -/
def cleanDocC6 : OpenapiDocument :=
  { openapi := some "3.0.0", paths := [("/pet", { get := some inlinedOp })] }

/-- Dereferencing capability that resolves every input to the inlined
document. -/
def derefClean : OpenapiDocument → Option OpenapiDocument := fun _ => some cleanDocC6

/-- Operation declaring an explicitly empty server list. -/
def opEmptyServers : Operation := { servers := some [] }

/-- Root server list with one parseable url. -/
def rootListC8 : List Server := [{ url := "https://root.example" }]

/-- URL-parsing capability recognizing the root server url. -/
def poC8 : String → Option String := fun s =>
  if s == "https://root.example" then some "https://root.example" else none

/-- Document holding both a route and a second route equal to that route
with one more leading slash. -/
def docC10 : OpenapiDocument :=
  { paths := [("/x", { get := some { operationId := some "opX" } }),
              ("//x", { get := some { operationId := some "doubleSlash" } })] }
-- ==================== HELPER LEMMAS ====================

/-- Dropping the first character of a string prefixed with one slash
recovers the string. -/
theorem sliceOne_slash (t : String) : sliceOne ("/" ++ t) = t := by
  cases t with
  | mk data =>
    show String.mk ((("/" : String) ++ String.mk data).data.drop 1) = String.mk data
    rw [String.data_append]
    rfl

/-- The inner method scan agrees with a find over the filterMapped method
list. -/
theorem findMethodOp_find? (item : PathItem) (target path : String) (ms : List String) :
    (ms.filterMap (fun m => (item.lookupMethod m).map (fun op => (path, m, op)))).find?
        (fun t => t.2.2.operationId == some target)
      = (findMethodOp item target ms).map (fun q => (path, q.1, q.2)) := by
  induction ms with
  | nil => rfl
  | cons m rest ih =>
    rw [List.filterMap_cons]
    cases h : item.lookupMethod m with
    | none =>
      simp only [findMethodOp, h]
      exact ih
    | some op =>
      simp only [findMethodOp, h, Option.map_some']
      rw [List.find?_cons]
      cases hid : (op.operationId == some target) with
      | true => simp [hid]
      | false => simp [hid, ih]

/-- The operationId loop of the matcher agrees with the first-match scan
of the flattened operation list. -/
theorem findIdMatch_eq_spec (target : String) (paths : List (String × PathItem)) :
    findIdMatch target paths
      = ((paths.flatMap (fun p =>
            matchMethods.filterMap (fun m =>
              (p.2.lookupMethod m).map (fun op => (p.1, m, op))))).find?
            (fun t => t.2.2.operationId == some target)).map
          (fun t => { operation := t.2.2, originalPath := t.1, method := strToUpper t.2.1 }) := by
  induction paths with
  | nil => rfl
  | cons p rest ih =>
    obtain ⟨path, item⟩ := p
    rw [List.flatMap_cons, List.find?_append, findMethodOp_find?]
    cases h : findMethodOp item target matchMethods with
    | none =>
      simp only [findIdMatch, h, Option.map_none', Option.none_or]
      exact ih
    | some q =>
      simp [findIdMatch, h]

/-- The matcher as called by the handler agrees with the worded matching
policy. -/
theorem matchToken_eq_spec (doc : OpenapiDocument) (token : String) :
    matchToken doc token = matchPolicySpec doc token := by
  unfold matchToken matchOperation matchPolicySpec
  cases h : (lookupPath doc.paths ("/" ++ token)).bind PathItem.get with
  | some op => rfl
  | none =>
    rw [sliceOne_slash]
    unfold firstIdMatchSpec allOperations
    exact findIdMatch_eq_spec token doc.paths

/-- C1: matching first tries the token as a literal route path using only
the GET method, and only if that fails compares the token against every
operationId across all paths and methods in path-then-method order,
returning the first match; a document with both a literal path /foo and
another operation with operationId foo resolves token foo to the literal
GET operation, and a duplicated operationId is resolved to its first
declaration. -/
theorem claim_C1 (doc : OpenapiDocument) (token : String) :
    matchToken doc token = matchPolicySpec doc token
    ∧ ((lookupPath doc.paths ("/" ++ token)).bind PathItem.get = none →
        matchToken doc token = firstIdMatchSpec doc token)
    ∧ matchToken fooDoc "foo"
        = some { operation := fooGetOp, originalPath := "/foo", method := "GET" }
    ∧ matchToken dupDoc "dup"
        = some { operation := dupOpFirst, originalPath := "/a", method := "GET" }
    ∧ matchToken dupMethodDoc "mm2"
        = some { operation := dmPost, originalPath := "/mm", method := "POST" } := by
  refine ⟨matchToken_eq_spec doc token, fun h => ?_, rfl, rfl, rfl⟩
  rw [matchToken_eq_spec doc token]
  unfold matchPolicySpec
  rw [h]

/-- Witness for C1 at concrete inputs: a token with no direct route match
resolves through the operationId scan. -/
theorem claim_C1_witness :
    matchToken fooDoc "getFoo" = firstIdMatchSpec fooDoc "getFoo" :=
  (claim_C1 fooDoc "getFoo").2.1 rfl

/-- C2 counterexample: on a Swagger input, a converter output whose
openapi field is truthy but does not start with the 3. prefix is accepted
unchanged, so normalization can yield a document whose openapi field does
not start with 3. without a ConversionError. -/
theorem claim_C2_counterexample :
    isSwaggerDoc swaggerDocC2 = true
    ∧ normalizeDoc (some convBadC2) swaggerDocC2 = NormalizeResult.ok convBadC2
    ∧ strStartsWith (convBadC2.openapi.getD "") "3." = false :=
  ⟨rfl, rfl, rfl⟩

/-- C2 amended: for every Swagger input, normalization either fails with
a ConversionError or returns the converter output, whose openapi field is
then truthy (present and non-empty) though not necessarily of version 3;
a converter outcome lacking a truthy openapi field, or an absent outcome,
is a terminal ConversionError. -/
theorem claim_C2 (conv : Option OpenapiDocument) (d : OpenapiDocument)
    (h : isSwaggerDoc d = true) :
    (normalizeDoc conv d = NormalizeResult.conversionError
      ∨ ∃ c, conv = some c ∧ normalizeDoc conv d = NormalizeResult.ok c
          ∧ truthyStr c.openapi = true)
    ∧ (∀ c, conv = some c → truthyStr c.openapi = false →
        normalizeDoc conv d = NormalizeResult.conversionError)
    ∧ (conv = none → normalizeDoc conv d = NormalizeResult.conversionError) := by
  unfold normalizeDoc
  rw [h]
  simp only [if_true]
  cases conv with
  | none =>
    refine ⟨Or.inl rfl, fun c hc ht2 => ?_, fun _ => rfl⟩
    cases hc
  | some c =>
    cases ht : truthyStr c.openapi with
    | true =>
      refine ⟨Or.inr ⟨c, rfl, ?_, ht⟩, fun c2 hc2 ht2 => ?_, fun hn => nomatch hn⟩
      · simp [ht]
      · cases hc2
        rw [ht] at ht2
        cases ht2
    | false =>
      refine ⟨Or.inl ?_, fun c2 hc2 ht2 => ?_, fun hn => nomatch hn⟩
      · simp [ht]
      · simp [ht]

/-- Witness for C2 at a concrete Swagger document with a failed
conversion. -/
theorem claim_C2_witness :
    normalizeDoc none swaggerDocC2 = NormalizeResult.conversionError :=
  (claim_C2 none swaggerDocC2 rfl).2.2 rfl

/-- C3: once a document has normalized successfully, an overview longer
than 250000 characters makes the call fail with the too-large error, and
an overview of at most 250000 characters is returned unmodified. -/
theorem claim_C3 (parseOrigin : String → Option String)
    (conv : Option OpenapiDocument) (id : String) (doc c : OpenapiDocument)
    (hn : normalizeDoc conv doc = NormalizeResult.ok c) :
    ((generateOverview parseOrigin id c).length > 250000 →
        handleGetApiOverviewCore parseOrigin conv id doc
          = { text := tooLargeMessage, isError := true })
    ∧ ((generateOverview parseOrigin id c).length ≤ 250000 →
        handleGetApiOverviewCore parseOrigin conv id doc
          = { text := generateOverview parseOrigin id c, isError := false }) := by
  unfold handleGetApiOverviewCore
  rw [hn]
  constructor
  · intro h
    simp only [if_pos h]
  · intro h
    have h2 : ¬ (generateOverview parseOrigin id c).length > 250000 := by omega
    simp only [if_neg h2]

/-- The big string has length 250001. -/
theorem bigString_length : bigString.length = 250001 :=
  List.length_replicate 250001 'a'

/-- The overview of the big document decomposes around the big string. -/
theorem bigOverview_eq :
    generateOverview po0 "w" bigDoc3
      = ("Below is an overview of the w openapi in simple language. This API contains 0 endpoints. For more detailed information of an endpoint, visit https://oapis.org/summary/w/[idOrRoute]" ++ "\n")
          ++ (("" ++ "\n") ++ (("T v1 - " ++ "\n") ++ ((bigString ++ "\n") ++ ""))) := rfl

/-- The overview of the big document exceeds the ceiling. -/
theorem bigOverview_large : (generateOverview po0 "w" bigDoc3).length > 250000 := by
  rw [bigOverview_eq]
  simp only [String.length_append]
  rw [bigString_length]
  omega

set_option maxRecDepth 8000 in
/-- Witness for C3: the big document fails with the too-large error, the
small document returns its overview unmodified. -/
theorem claim_C3_witness :
    handleGetApiOverviewCore po0 none "w" bigDoc3
        = { text := tooLargeMessage, isError := true }
    ∧ handleGetApiOverviewCore po0 none "s" smallDoc3
        = { text := generateOverview po0 "s" smallDoc3, isError := false } :=
  ⟨(claim_C3 po0 none "w" bigDoc3 bigDoc3 rfl).1 bigOverview_large,
   (claim_C3 po0 none "s" smallDoc3 smallDoc3 rfl).2 (by decide)⟩

/-- The empty string occurs in any string. -/
theorem substrOf_empty (s : String) : SubstrOf "" s :=
  ⟨s, "", by rw [String.append_empty, String.append_empty]⟩

/-- Every string occurs in itself. -/
theorem substrOf_self (s : String) : SubstrOf s s :=
  ⟨"", "", by rw [String.empty_append, String.append_empty]⟩

/-- Occurrence transports along equality of the haystack. -/
theorem substrOf_congr {s a b : String} (h : a = b) (hs : SubstrOf s a) : SubstrOf s b :=
  h ▸ hs

/-- Occurrence is preserved by surrounding context. -/
theorem substrOf_extend (s pre inner post : String) (h : SubstrOf s inner) :
    SubstrOf s (pre ++ inner ++ post) := by
  obtain ⟨a, b, hab⟩ := h
  refine ⟨pre ++ a, b ++ post, ?_⟩
  rw [hab]
  simp [String.append_assoc]

/-- A member of the joined list occurs in the join. -/
theorem substrOf_joinSep (s sep : String) (l : List String) (h : s ∈ l) :
    SubstrOf s (joinSep sep l) := by
  induction l with
  | nil => cases h
  | cons x rest ih =>
    cases rest with
    | nil =>
      cases h with
      | head => exact substrOf_self _
      | tail _ hm => cases hm
    | cons y t =>
      cases h with
      | head =>
        refine ⟨"", sep ++ joinSep sep (y :: t), ?_⟩
        show (s ++ sep) ++ joinSep sep (y :: t) = ("" ++ s) ++ (sep ++ joinSep sep (y :: t))
        rw [String.empty_append, String.append_assoc]
      | tail _ hm =>
        obtain ⟨a, b, hab⟩ := ih hm
        refine ⟨(x ++ sep) ++ a, b, ?_⟩
        show (x ++ sep) ++ joinSep sep (y :: t) = (((x ++ sep) ++ a) ++ s) ++ b
        rw [hab]
        simp [String.append_assoc]

/-- C4: a token matching no operation yields an error result whose
message carries every declared operationId and every route key of the
document. -/
theorem claim_C4 (deref : OpenapiDocument → Option OpenapiDocument)
    (doc : OpenapiDocument) (token : String)
    (h : matchOperation doc ("/" ++ token) = none) :
    handleGetApiOperationCore deref doc token
        = OperationResult.errorText (notFoundMessage doc)
    ∧ (handleGetApiOperationCore deref doc token).isError = true
    ∧ (∀ s, DeclaredId doc s → SubstrOf s (notFoundMessage doc))
    ∧ (∀ r ∈ doc.paths.map (fun p => p.1), SubstrOf r (notFoundMessage doc)) := by
  refine ⟨?_, ?_, ?_, ?_⟩
  · unfold handleGetApiOperationCore
    rw [h]
  · unfold handleGetApiOperationCore
    rw [h]
    rfl
  · intro s hs
    by_cases hse : s = ""
    · subst hse
      exact substrOf_empty _
    · obtain ⟨p, hp, o, ho, op, rfl, hid⟩ := hs
      have hmem : s ∈ doc.paths.flatMap (fun p => pathItemIds p.2) := by
        rw [List.mem_flatMap]
        refine ⟨p, hp, ?_⟩
        unfold pathItemIds
        rw [List.mem_filterMap]
        refine ⟨some op, ho, ?_⟩
        show (match (some op).bind Operation.operationId with
              | some v => if v == "" then none else some v
              | none => none) = some s
        rw [show (some op).bind Operation.operationId = op.operationId from rfl, hid]
        show (if (s == "") = true then none else some s) = some s
        rw [beq_eq_false_iff_ne.mpr hse]
        rfl
      have hj := substrOf_joinSep s ", " _ hmem
      have hx := substrOf_extend s "Error: Operation wasn\x27t found. Available IDs: "
        (joinSep ", " (doc.paths.flatMap (fun p => pathItemIds p.2)))
        (". Routes: " ++ joinSep ", " (doc.paths.map (fun p => p.1))) hj
      exact substrOf_congr (String.append_assoc _ _ _).symm hx
  · intro r hr
    have hj := substrOf_joinSep r ", " _ hr
    have hx := substrOf_extend r
      (("Error: Operation wasn\x27t found. Available IDs: "
          ++ joinSep ", " (doc.paths.flatMap (fun p => pathItemIds p.2)))
        ++ ". Routes: ")
      (joinSep ", " (doc.paths.map (fun p => p.1))) "" hj
    exact substrOf_congr (String.append_empty _) hx

/-- Witness for C4 at a concrete document and unmatched token. -/
theorem claim_C4_witness :
    handleGetApiOperationCore derefFail docC4 "nope"
        = OperationResult.errorText (notFoundMessage docC4)
    ∧ SubstrOf "alpha" (notFoundMessage docC4)
    ∧ SubstrOf "/b" (notFoundMessage docC4) :=
  ⟨(claim_C4 derefFail docC4 "nope" rfl).1,
   (claim_C4 derefFail docC4 "nope" rfl).2.2.1 "alpha"
     ⟨("/a", itemA), by simp [docC4], some opAlpha, by simp [errEnumMethods, itemA],
      opAlpha, rfl, rfl⟩,
   (claim_C4 derefFail docC4 "nope" rfl).2.2.2 "/b" (by simp [docC4])⟩

set_option maxRecDepth 4000 in
/-- C5 evaluation at the failing inputs: the pet-store scenario document
declares exactly one operation and no info description, yet the banner of
its generated overview reports 0 endpoints; a document with no operations
and no description is reported as containing -1 endpoints.  The count is
computed as the output line count minus three, which is correct only when
a description line is present. -/
theorem claim_C5_eval :
    (allOperations petDoc).length = 1
    ∧ generateOverview petParse "petstore" petDoc
        = "Below is an overview of the petstore openapi in simple language. This API contains 0 endpoints. For more detailed information of an endpoint, visit https://oapis.org/summary/petstore/[idOrRoute]\n\nPet Store v1.0 - https://pets.example.com\n\n- listPets GET https://pets.example.com/pets?limit=integer - List pets ( Spec: https://oapis.org/openapi/petstore/listPets )"
    ∧ (allOperations smallDoc3).length = 0
    ∧ generateOverview po0 "s" smallDoc3
        = "Below is an overview of the s openapi in simple language. This API contains -1 endpoints. For more detailed information of an endpoint, visit https://oapis.org/summary/s/[idOrRoute]\n\nT v1 - \n" :=
  ⟨rfl, rfl, rfl, rfl⟩

/-- C6: when the dereferencing capability succeeds and honours its
contract of producing ref-free documents, the operation-detail result is
a document stripped of tags, webhooks and components whose operations are
ref-free. -/
theorem claim_C6 (deref : OpenapiDocument → Option OpenapiDocument)
    (doc : OpenapiDocument) (token : String) (matched : MatchedOperation)
    (dd : OpenapiDocument)
    (hcontract : ∀ d d2, deref d = some d2 → docNoRefs d2 = true)
    (hmatch : matchOperation doc ("/" ++ token) = some matched)
    (hderef : deref (buildSubset doc matched) = some dd) :
    handleGetApiOperationCore deref doc token
        = OperationResult.okDoc (stripSections dd)
    ∧ (stripSections dd).tags = none
    ∧ (stripSections dd).webhooks = none
    ∧ (stripSections dd).components = none
    ∧ docNoRefs (stripSections dd) = true := by
  refine ⟨?_, rfl, rfl, rfl, ?_⟩
  · unfold handleGetApiOperationCore
    rw [hmatch]
    simp only []
    rw [hderef]
  · have h2 := hcontract _ _ hderef
    exact h2

/-- Witness for C6: a concrete document with a component ref, matched by
operationId, dereferenced by a capability that inlines the schema. -/
theorem claim_C6_witness :
    handleGetApiOperationCore derefClean docC6 "getPet"
        = OperationResult.okDoc (stripSections cleanDocC6)
    ∧ docNoRefs (stripSections cleanDocC6) = true :=
  ⟨(claim_C6 derefClean docC6 "getPet"
      { operation := petRefOp, originalPath := "/pet", method := "GET" } cleanDocC6
      (fun d d2 h => by cases h; rfl) rfl rfl).1,
   (claim_C6 derefClean docC6 "getPet"
      { operation := petRefOp, originalPath := "/pet", method := "GET" } cleanDocC6
      (fun d d2 h => by cases h; rfl) rfl rfl).2.2.2.2⟩

/-- C7: when dereferencing fails, the handler returns the un-dereferenced
minimal sub-document, holding only the matched path and method, as a
successful (non-error) result. -/
theorem claim_C7 (deref : OpenapiDocument → Option OpenapiDocument)
    (doc : OpenapiDocument) (token : String) (matched : MatchedOperation)
    (hmatch : matchOperation doc ("/" ++ token) = some matched)
    (hderef : deref (buildSubset doc matched) = none) :
    handleGetApiOperationCore deref doc token
        = OperationResult.okDoc (buildSubset doc matched)
    ∧ (handleGetApiOperationCore deref doc token).isError = false
    ∧ (buildSubset doc matched).paths
        = [(matched.originalPath,
            singletonPathItem (strToLower matched.method) matched.operation)] := by
  have h1 : handleGetApiOperationCore deref doc token
      = OperationResult.okDoc (buildSubset doc matched) := by
    unfold handleGetApiOperationCore
    rw [hmatch]
    simp only []
    rw [hderef]
  exact ⟨h1, by rw [h1]; rfl, rfl⟩

/-- Witness for C7: the always-throwing dereferencer degrades to the raw
subset of the concrete document. -/
theorem claim_C7_witness :
    handleGetApiOperationCore derefFail docC6 "getPet"
        = OperationResult.okDoc (buildSubset docC6
            { operation := petRefOp, originalPath := "/pet", method := "GET" })
    ∧ (handleGetApiOperationCore derefFail docC6 "getPet").isError = false :=
  ⟨(claim_C7 derefFail docC6 "getPet"
      { operation := petRefOp, originalPath := "/pet", method := "GET" } rfl rfl).1,
   (claim_C7 derefFail docC6 "getPet"
      { operation := petRefOp, originalPath := "/pet", method := "GET" } rfl rfl).2.1⟩

/-- C8 counterexample: an operation declaring an explicitly empty server
list yields the empty origin even though the document root declares a
parseable server, contradicting the claimed fallback to root servers for
an operation that declares no servers. -/
theorem claim_C8_counterexample :
    getServerOrigin poC8 (some opEmptyServers) rootListC8 = ""
    ∧ getServerOrigin poC8 none rootListC8 = "https://root.example" :=
  ⟨rfl, rfl⟩

/-- C8 amended: the origin chain prefers the servers field of the
operation whenever that field is present, even when it is an empty list
(yielding the empty origin); only an absent field falls back to the root
servers; parsing failure of the chosen url falls back to the first
slash-separated segment; an empty chosen list yields the empty origin. -/
theorem claim_C8 (po : String → Option String) (root : List Server) (op : Operation) :
    (op.servers = none →
        getServerOrigin po (some op) root = getServerOrigin po none root)
    ∧ (op.servers = some [] → getServerOrigin po (some op) root = "")
    ∧ (∀ s rest, op.servers = some (s :: rest) →
        getServerOrigin po (some op) root
          = (match po s.url with
             | some origin => origin
             | none => firstSplitSegment s.url '/'))
    ∧ (root = [] → getServerOrigin po none root = "")
    ∧ (∀ s rest, root = s :: rest →
        getServerOrigin po none root
          = (match po s.url with
             | some origin => origin
             | none => firstSplitSegment s.url '/')) := by
  refine ⟨fun h => ?_, fun h => ?_, fun s rest h => ?_, fun h => ?_, fun s rest h => ?_⟩ <;>
    simp [getServerOrigin, h]

/-- Witness for C8 at concrete inputs covering the chain. -/
theorem claim_C8_witness :
    getServerOrigin poC8 (some fooGetOp) rootListC8 = getServerOrigin poC8 none rootListC8
    ∧ getServerOrigin poC8 (some opEmptyServers) rootListC8 = ""
    ∧ getServerOrigin poC8 none [] = "" :=
  ⟨(claim_C8 poC8 rootListC8 fooGetOp).1 rfl,
   (claim_C8 poC8 rootListC8 opEmptyServers).2.1 rfl,
   (claim_C8 poC8 [] fooGetOp).2.2.2.1 rfl⟩

/-- C10 counterexample: a token beginning with a slash, itself a verbatim
route key of the document, does match via the direct-path strategy when
the document also holds that route with one more leading slash. -/
theorem claim_C10_counterexample :
    ("/x" ∈ docC10.paths.map (fun p => p.1))
    ∧ matchToken docC10 "/x"
        = some { operation := { operationId := some "doubleSlash" },
                 originalPath := "//x", method := "GET" } :=
  ⟨by simp [docC10], rfl⟩

/-- C10 amended: the handler prepends exactly one slash to the token; a
token equal to a route key minus its leading slash direct-matches the GET
operation of that route when present; when no route equals the slashed
token, matching falls through to the operationId scan, which compares the
token verbatim, leading slash included. -/
theorem claim_C10 (doc : OpenapiDocument) (t : String) :
    matchToken doc t = matchOperation doc ("/" ++ t)
    ∧ (∀ item op, lookupPath doc.paths ("/" ++ t) = some item → item.get = some op →
        matchToken doc t
          = some { operation := op, originalPath := "/" ++ t, method := "GET" })
    ∧ ((lookupPath doc.paths ("/" ++ t)).bind PathItem.get = none →
        matchToken doc t = findIdMatch t doc.paths) := by
  refine ⟨rfl, fun item op h1 h2 => ?_, fun h => ?_⟩
  · unfold matchToken matchOperation
    rw [h1]
    show (match item.get with
          | some directMatch =>
            some { operation := directMatch, originalPath := "/" ++ t, method := "GET" }
          | none => findIdMatch (sliceOne ("/" ++ t)) doc.paths)
        = some { operation := op, originalPath := "/" ++ t, method := "GET" }
    rw [h2]
  · unfold matchToken matchOperation
    rw [h, sliceOne_slash]

/-- Witness for C10 at concrete inputs: the double-slash route
direct-matches, and an unmatched plain token falls through with the token
compared verbatim. -/
theorem claim_C10_witness :
    matchToken docC10 "/x"
        = some { operation := { operationId := some "doubleSlash" },
                 originalPath := "//x", method := "GET" }
    ∧ matchToken fooDoc "zzz" = findIdMatch "zzz" fooDoc.paths :=
  ⟨(claim_C10 docC10 "/x").2.1
      { get := some { operationId := some "doubleSlash" } }
      { operationId := some "doubleSlash" } rfl rfl,
   (claim_C10 fooDoc "zzz").2.2 rfl⟩

/-- The join of a nonempty list is at least as long as its head. -/
theorem joinSep_cons_length (sep x : String) (l : List String) :
    x.length ≤ (joinSep sep (x :: l)).length := by
  cases l with
  | nil => exact le_refl _
  | cons y t =>
    show x.length ≤ ((x ++ sep) ++ joinSep sep (y :: t)).length
    rw [String.length_append, String.length_append]
    omega

/-- A join of mapped strings over a nonempty list is nonempty when the
map never produces an empty string. -/
theorem joinSep_map_ne_empty {α : Type} (sep : String) (g : α → String)
    (x : α) (l : List α) (hg : ∀ p, 1 ≤ (g p).length) :
    joinSep sep ((x :: l).map g) ≠ "" := by
  have h1 : 1 ≤ (joinSep sep ((x :: l).map g)).length := by
    rw [List.map_cons]
    exact le_trans (hg x) (joinSep_cons_length sep (g x) (l.map g))
  intro he
  rw [he] at h1
  exact absurd h1 (by decide)

/-- The name and type pair of a query parameter is never empty. -/
theorem pairString_length (p : Parameter) :
    1 ≤ (p.name ++ "=" ++
      (match p.schema.bind ParamSchema.type with
       | some t => if t == "" then p.name else t
       | none => p.name)).length := by
  rw [String.length_append, String.length_append]
  have h1 : ("=" : String).length = 1 := rfl
  omega

/-- The path part built for one operation line: uppercased method, a
space, the resolved origin, the route, and the query string of the
specification wording. -/
theorem buildItem_pathPart (po : String → Option String) (hostname : String)
    (root : List Server) (path m : String) (op : Operation) :
    (buildItem po hostname root path m op).pathPart
      = strToUpper m ++ " " ++ getServerOrigin po (some op) root ++ path
          ++ queryStringSpec op := by
  unfold buildItem queryStringSpec queryPairsSpec
  cases hp : op.parameters with
  | none => rfl
  | some ps =>
    simp only [hp, Option.map_some', Option.getD_some]
    cases hf : ps.filter (fun p => p.paramIn == "query") with
    | nil => rfl
    | cons q qs =>
      have hne := joinSep_map_ne_empty "&"
        (fun p => p.name ++ "=" ++
          (match p.schema.bind ParamSchema.type with
           | some t => if t == "" then p.name else t
           | none => p.name)) q qs pairString_length
      rw [beq_eq_false_iff_ne.mpr hne]
      rfl

/-- C9: the overview text is the banner, a blank line and the header
followed by one line per operation; each line concatenates the operation
identifier, a space and the path part - the latter omitted exactly when
the serialized item set exceeds 50000 characters - then the summary part
and the detail pointer; the path part is the uppercased method, origin,
route and one name and type pair per query parameter joined by
ampersands. -/
theorem claim_C9 (po : String → Option String) (hostname : String)
    (doc : OpenapiDocument) :
    (∃ c : Int, generateOverview po hostname doc
        = joinSep "\n" ([overviewBanner hostname c, ""]
            ++ overviewHeader po doc
            ++ (collectItems po hostname doc).map
                 (itemLine ((stringifyItems (collectItems po hostname doc)).length > 50000))))
    ∧ (∀ root path m op, (buildItem po hostname root path m op).pathPart
        = strToUpper m ++ " " ++ getServerOrigin po (some op) root ++ path
            ++ queryStringSpec op)
    ∧ (∀ b item, itemLine b item
        = "- " ++ item.operationId ++ (if b then " " else " " ++ item.pathPart)
            ++ item.summaryPart ++ " ( Spec: " ++ item.openapiUrl ++ " )") := by
  refine ⟨?_, fun root path m op => buildItem_pathPart po hostname root path m op,
    fun b item => rfl⟩
  refine ⟨((overviewHeader po doc
      ++ (collectItems po hostname doc).map
           (itemLine ((stringifyItems (collectItems po hostname doc)).length > 50000))).length : Int)
      - 3, ?_⟩
  simp only [generateOverview]
  rw [← List.append_assoc]
